import Mathlib

set_option maxRecDepth 8000

/- Formal model of the SearchGPT backend core (services and utils of the
   Python repository), as a shallow embedding: pure functions are translated
   directly, stateful/IO-bound code is modelled by explicit environment
   records describing the outcomes of external calls (browser, network,
   NLTK tokenizers), and Python exceptions become `Except` values. -/

/- ## Shared text helpers -/

/-- The apostrophe character, used to build string literals faithfully. -/
def apos : String := String.singleton (Char.ofNat 39)

/-- Python `sub in s` substring containment, on character lists. -/
def listContainsSub (pat : List Char) : List Char → Bool
  | [] => pat.isEmpty
  | c :: cs => pat.isPrefixOf (c :: cs) || listContainsSub pat cs

/-- Python `sub in s` substring containment on strings. -/
def strContainsSub (s sub : String) : Bool :=
  listContainsSub sub.data s.data

/-- Lowercase a character list (ASCII case folding, as Python `str.lower`
and `(?i)` matching do on ASCII text). -/
def lcList (l : List Char) : List Char := l.map Char.toLower

/-- Python `s.lower()` on strings. -/
def strToLower (s : String) : String := String.mk (lcList s.data)

/-- Worker for whitespace splitting: `cur` accumulates the current word in
reverse; words are emitted at whitespace boundaries, empties dropped. -/
def splitWsAux : List Char → List Char → List String
  | cur, [] => if cur.isEmpty then [] else [String.mk cur.reverse]
  | cur, c :: cs =>
    if c.isWhitespace then
      if cur.isEmpty then splitWsAux [] cs
      else String.mk cur.reverse :: splitWsAux [] cs
    else splitWsAux (c :: cur) cs

/-- Python `s.split()` with no argument: split on whitespace runs, dropping
empty pieces. -/
def pyWords (s : String) : List String :=
  splitWsAux [] s.data

/-- Python `s.lower().split()` (information_synthesizer.py `is_similar`,
lines 171-172). -/
def pyTokens (s : String) : List String :=
  splitWsAux [] (lcList s.data)

/-- Python `s.strip()`: drop whitespace from both ends of a character list. -/
def trimList (l : List Char) : List Char :=
  (((l.dropWhile Char.isWhitespace).reverse).dropWhile Char.isWhitespace).reverse

/-- Python `s.strip()` on strings. -/
def strTrim (s : String) : String := String.mk (trimList s.data)

/-- Worker for `splitChar`: split a character list at every occurrence of a
separator character, keeping empty pieces (Python `s.split(sep)`). -/
def splitCharAux (sep : Char) : List Char → List Char → List (List Char)
  | cur, [] => [cur.reverse]
  | cur, c :: cs =>
    if c = sep then cur.reverse :: splitCharAux sep [] cs
    else splitCharAux sep (c :: cur) cs

/-- Python `s.split(sep)` for a one-character separator. -/
def splitChar (sep : Char) (s : String) : List String :=
  (splitCharAux sep [] s.data).map String.mk

/-- Python `set(s.lower().split())`: the token set of a string. -/
def tokenSet (s : String) : Finset String :=
  (pyTokens s).toFinset

/- ## InformationSynthesizer.is_similar (information_synthesizer.py 166-183) -/

/-- `InformationSynthesizer.is_similar`: Jaccard similarity of the lowercase
whitespace token sets, compared strictly against the default threshold 0.7;
an empty union yields `false`. With a positive union, `inter / union > 0.7`
holds exactly when `7 * union < 10 * inter`, so the comparison is stated
cross-multiplied to stay within the natural numbers. -/
def isSimilar (s1 s2 : String) : Bool :=
  let tokens1 := tokenSet s1
  let tokens2 := tokenSet s2
  let inter : Nat := (tokens1 ∩ tokens2).card
  let union : Nat := (tokens1 ∪ tokens2).card
  if union = 0 then false
  else decide (7 * union < 10 * inter)

/- ## WebSearcher.is_valid_url (web_searcher.py 146-171) -/

/-- The disallowed-domain substrings of `WebSearcher.is_valid_url`. -/
def disallowedDomains : List String :=
  ["pinterest.com", "quora.com", "reddit.com",
   "facebook.com", "twitter.com", "instagram.com"]

/-- `WebSearcher.is_valid_url`: empty URLs and URLs not starting with
`http://` or `https://` (the regex `^https?://`) are invalid, as is any URL
containing one of the disallowed domain substrings anywhere. -/
def isValidUrl (url : String) : Bool :=
  if url = "" then false
  else if !("http://".data.isPrefixOf url.data || "https://".data.isPrefixOf url.data) then false
  else if disallowedDomains.any (fun d => strContainsSub url d) then false
  else true

/- ## URL cleaning (spec section 4.1) -/

/-- Modelled from the spec: the repository sources contain no URL-cleaning
function; section 4.1 specifies `clean(url)`. A query-parameter name is a
tracking parameter when it is utm-prefixed, ga-prefixed, or one of fbclid,
gclid, msclkid, ref, referrer, source, campaign. -/
def isTrackingParamName (name : String) : Bool :=
  "utm_".data.isPrefixOf name.data || "ga".data.isPrefixOf name.data ||
  name == "fbclid" || name == "gclid" || name == "msclkid" ||
  name == "ref" || name == "referrer" || name == "source" || name == "campaign"

/-- Modelled from the spec: `clean(url)` strips the URL fragment, removes the
known tracking query parameters, and preserves the remaining query
parameters and the path (spec section 4.1). -/
def cleanUrl (url : String) : String :=
  let noFrag := (splitChar (Char.ofNat 35) url).headD url
  match splitChar (Char.ofNat 63) noFrag with
  | [] => noFrag
  | [base] => base
  | base :: rest =>
    let query := String.intercalate "?" rest
    let params := splitChar (Char.ofNat 38) query
    let kept := params.filter (fun p => !(isTrackingParamName ((splitChar (Char.ofNat 61) p).headD p)))
    if kept.isEmpty then base else base ++ "?" ++ String.intercalate "&" kept

/- ## QueryAnalyzer.analyze (query_analyzer.py 42-69) -/

/-- The filler lead-in phrases of `QueryAnalyzer.analyze` (lines 53-57). -/
def fillerPhrases : List String :=
  ["please tell me", "i want to know", "can you tell me",
   "i" ++ apos ++ "m looking for", "i" ++ apos ++ "d like to know",
   "inform me about", "give me information about", "i need information on"]

/-- Fuel-indexed worker for `removeAllCI`; the fuel starts at the length of
the character list and strictly bounds the recursion. -/
def removeAllCIAux (pat : List Char) : Nat → List Char → List Char
  | 0, _ => []
  | _, [] => []
  | fuel + 1, c :: cs =>
    if !pat.isEmpty && pat.isPrefixOf (lcList (c :: cs)) then
      removeAllCIAux pat fuel (List.drop pat.length (c :: cs))
    else
      c :: removeAllCIAux pat fuel cs

/-- Python `re.sub(r"(?i)" + re.escape(phrase), "", s)`: remove every
left-to-right non-overlapping case-insensitive occurrence of the literal
phrase (query_analyzer.py lines 59-60). `pat` is given in lowercase. -/
def removeAllCI (pat : List Char) (l : List Char) : List Char :=
  removeAllCIAux pat l.length l

/-- The alternatives of the anchored interrogative pattern
`^(what is|who is|where is|when is|how to|why is|can you) `
(query_analyzer.py line 63). -/
def interrogatives : List String :=
  ["what is", "who is", "where is", "when is", "how to", "why is", "can you"]

/-- Python `re.sub(r"(?i)^(...|...) ", "", s)`: drop the alternative and the
following space, only when they start the string (the pattern is anchored). -/
def stripInterrogative (l : List Char) : List Char :=
  match interrogatives.find? (fun p => (p ++ " ").data.isPrefixOf (lcList l)) with
  | some p => List.drop (p.length + 1) l
  | none => l

/-- Worker for `collapseWs`: the flag records whether the previous kept
character position was inside a whitespace run. -/
def collapseWsAux : Bool → List Char → List Char
  | _, [] => []
  | prevWs, c :: cs =>
    if c.isWhitespace then
      if prevWs then collapseWsAux true cs
      else ' ' :: collapseWsAux true cs
    else c :: collapseWsAux false cs

/-- Python `re.sub(r"\s+", " ", s)`: replace each maximal whitespace run by a
single space (query_analyzer.py line 66). -/
def collapseWs (l : List Char) : List Char :=
  collapseWsAux false l

/-- `QueryAnalyzer.analyze` (query_analyzer.py lines 42-69): empty input is
returned unchanged; otherwise strip, remove every filler phrase
case-insensitively, strip a leading interrogative alternative, collapse
whitespace and strip again. -/
def analyze (query : String) : String :=
  if query = "" then ""
  else
    let q0 := strTrim query
    let q1 := fillerPhrases.foldl (fun s p => String.mk (removeAllCI (lcList p.data) s.data)) q0
    let q2 := String.mk (stripInterrogative q1.data)
    strTrim (String.mk (collapseWs q2.data))

/- ## InformationSynthesizer.extract_key_points (information_synthesizer.py 82-164)

   The NLTK sentence tokenizer and the keyword extractor are external
   libraries, so the embedded function takes the tokenized sentence list and
   the two keyword lists (query keywords, text keywords) as inputs. -/

/-- The alternatives of the definitional-sentence pattern
`(?i)(is|are|refers to|defined as|means)` (line 129), searched as substrings
of the lowercased sentence. -/
def defWords : List String := ["is", "are", "refers to", "defined as", "means"]

/-- Doubled keyword weight by position `j` in the combined keyword list:
query keywords weigh 2.0, the next text keywords up to index 5 weigh 1.5,
the rest 1.0 (lines 113-119). Every score contribution of the Python code
(2.0, 1.5, 1.0, -2, +1) is half-integral, so scores are stored doubled as
exact integers; doubling preserves every score comparison. -/
def kwWeight2 (numQuery j : Nat) : Int :=
  if j < numQuery then 4 else if j < 5 then 3 else 2

/-- The doubled score of one sentence (lines 106-134): weighted keyword
hits, a -2 penalty for sentences under 5 words, +1 for a definitional
pattern and +1 when the sentence contains a digit (the regex of line 133
matches exactly when some digit occurs); all contributions doubled, see
`kwWeight2`. -/
def sentenceScore2 (numQuery : Nat) (allKeywords : List String) (sentence : String) : Int :=
  let sLower := strToLower sentence
  let base : Int := allKeywords.enum.foldl
    (fun acc p => if strContainsSub sLower (strToLower p.2) then acc + kwWeight2 numQuery p.1 else acc) 0
  let base := if (pyWords sentence).length < 5 then base - 4 else base
  let base := if defWords.any (fun w => strContainsSub sLower w) then base + 2 else base
  if sentence.data.any Char.isDigit then base + 2 else base

/-- Stable insertion of an element into a list sorted by the boolean order
`le` (insertion sort helper). -/
def insertBy (le : Nat → Nat → Bool) (i : Nat) : List Nat → List Nat
  | [] => [i]
  | j :: rest => if le i j then i :: j :: rest else j :: insertBy le i rest

/-- Insertion sort by a boolean total order; with a tie-break on the index it
computes the same list as Python's stable `sorted`. -/
def isort (le : Nat → Nat → Bool) : List Nat → List Nat
  | [] => []
  | i :: rest => insertBy le i (isort le rest)

/-- The order of `sorted(sentence_scores.keys(), key=..., reverse=True)`
(line 137): descending score; Python's sort is stable and the keys are in
ascending order, so ties are broken by ascending index. -/
def byScoreDesc (score : Nat → Int) (i j : Nat) : Bool :=
  decide (score j < score i) || (decide (score i = score j) && decide (i ≤ j))

/-- The deduplication loop of lines 146-158: a point is kept only when it is
not `is_similar` to any previously kept point. -/
def dedupPoints (pts : List String) : List String :=
  pts.foldl (fun acc p => if acc.any (fun q => isSimilar p q) then acc else acc ++ [p]) []

/-- `InformationSynthesizer.extract_key_points` (lines 82-164) with the
external tokenizer outputs as inputs: with at most 5 sentences the list is
returned as is (line 92-93); otherwise the sentences are scored, the top 10
by score are restored to original order and deduplicated. -/
def extractKeyPoints (sentences queryKeywords textKeywords : List String) : List String :=
  if sentences.length ≤ 5 then sentences
  else
    let allKeywords := queryKeywords ++ textKeywords.filter (fun kw => !queryKeywords.contains kw)
    let score : Nat → Int := fun i => sentenceScore2 queryKeywords.length allKeywords (sentences.getD i "")
    let topIndices := (isort (byScoreDesc score) (List.range sentences.length)).take 10
    let topSorted := isort (fun i j => decide (i ≤ j)) topIndices
    let keyPoints := topSorted.map (fun i => sentences.getD i "")
    dedupPoints keyPoints

/- ## InformationSynthesizer.synthesize (information_synthesizer.py 19-80) -/

/-- One scraped result dict, as consumed by `synthesize`: each field holds
the value of the corresponding key when present (Python `result.get`). -/
structure ScrapedDoc where
  title : Option String
  url : Option String
  content : Option String
deriving DecidableEq

/-- One entry of the `sources` list: `{title, url}` (lines 47-50). -/
structure SourceEntry where
  title : String
  url : String
deriving DecidableEq

/-- The result shape of `synthesize`. -/
structure SynthesisResult where
  summary : String
  key_points : List String
  sources : List SourceEntry
deriving DecidableEq

/-- `InformationSynthesizer.synthesize` (lines 19-80). `get_summary` and
`extract_key_points` call external NLTK tokenizers, so they are passed in as
functions of the combined text (and query). Empty input list and
no-usable-content cases return the fixed fallback results of the source. -/
def synthesize (getSummary : String → String) (keyPoints : String → String → List String)
    (query : String) (scraped : List ScrapedDoc) : SynthesisResult :=
  if scraped = [] then
    { summary := "No information found for the query.", key_points := [], sources := [] }
  else
    let withContent := scraped.filter (fun d => d.content.getD "" != "")
    let allText := withContent.map (fun d => d.content.getD "")
    let sources := withContent.map
      (fun d => { title := d.title.getD "Untitled", url := d.url.getD "" : SourceEntry })
    if allText = [] then
      { summary := "No usable content found for the query.", key_points := [], sources := [] }
    else
      let combined := String.intercalate " " allText
      { summary := getSummary combined, key_points := keyPoints combined query, sources := sources }

/- ## ContentExtractor (content_extractor.py 71-213) -/

/-- One extracted document; `extraction_method` is the value stored in the
metadata dict by `extract_from_url` (the remaining metadata entries -
published date, authors, keywords, summary, redirect URL - play no role in
the claims and are omitted). -/
structure ExtractedDoc where
  url : String
  title : String
  content : String
  extraction_method : String
deriving DecidableEq

/-- Outcome of the external newspaper3k `Article` download and parse for a
URL: it raises, or yields a title and article text. -/
inductive Tier1Result where
  | err
  | ok (title text : String)
deriving DecidableEq

/-- Outcome of the Playwright browser tier for a URL: navigation failure,
empty page source, or a title and final cleaned content (the HTML parsing
and text cleanup run in external libraries). -/
inductive Tier2Result where
  | navFail
  | noSource
  | ok (title content currentUrl : String)
deriving DecidableEq

/-- The Playwright branch of `extract_from_url` (lines 102-172): a failed
navigation or missing page source raises (and the outer handler of lines
184-186 re-raises to the caller); otherwise the document is built with
`extraction_method = "playwright"`. -/
def tier2Extract (tier2 : String → Tier2Result) (url : String) :
    Except Unit (Option ExtractedDoc) :=
  match tier2 url with
  | .navFail => .error ()
  | .noSource => .error ()
  | .ok title content _cur =>
    .ok (some { url := url, title := title, content := content, extraction_method := "playwright" })

/-- `ContentExtractor.extract_from_url` (lines 71-186): empty URL returns
`None`; the newspaper3k tier is accepted only when its text has at least 500
characters (line 91) and records `extraction_method = "newspaper3k"`; any
tier-1 failure falls through to the Playwright tier. -/
def extractFromUrl (tier1 : String → Tier1Result) (tier2 : String → Tier2Result)
    (url : String) : Except Unit (Option ExtractedDoc) :=
  if url = "" then .ok none
  else
    match tier1 url with
    | .ok title text =>
      if text.length < 500 then tier2Extract tier2 url
      else .ok (some { url := url, title := title, content := text, extraction_method := "newspaper3k" })
    | .err => tier2Extract tier2 url

/-- The per-URL success document of a batch extraction, when there is one. -/
def successDoc (tier1 : String → Tier1Result) (tier2 : String → Tier2Result)
    (url : String) : Option ExtractedDoc :=
  match extractFromUrl tier1 tier2 url with
  | .ok (some d) => some d
  | _ => none

/-- `ContentExtractor.extract_multiple_urls` (lines 188-213):
`asyncio.gather(*tasks, return_exceptions=True)` yields one outcome per URL
in order; exceptions and falsy results are filtered out. -/
def extractMultipleUrls (tier1 : String → Tier1Result) (tier2 : String → Tier2Result)
    (urls : List String) : List ExtractedDoc :=
  if urls = [] then []
  else
    (urls.map (extractFromUrl tier1 tier2)).filterMap
      (fun r => match r with
        | .error _ => none
        | .ok none => none
        | .ok (some d) => some d)

/- ## SeleniumBrowser search chain (selenium_utils.py 283-1071) and
     WebSearcher.search (web_searcher.py 32-60) -/

/-- One raw search-result dict as built by the Selenium search code:
`{title, url, snippet, position}`, plus the `source` key added by the
alternative engines and the fallback results. -/
structure RawResult where
  title : String
  snippet : String
  url : String
  position : Nat
  source : Option String
deriving DecidableEq

/-- Outcome of one attempt of the `_search_google_directly` retry loop when
the driver is up: a failed navigation, a detected CAPTCHA / unusual-traffic /
security-check page, some other exception, or a completed extraction pass
with its (possibly empty) result list. The first three all raise inside the
attempt body and land in the handler of lines 666-669. -/
inductive GoogleAttempt where
  | navFail
  | captcha
  | err
  | extracted (rs : List RawResult)

/-- Environment of one search call: whether `SeleniumBrowser.start`
succeeds, the outcome of each Google attempt, the result lists the Bing,
DuckDuckGo and Searx blocks of `_search_alternative_engines` contribute
(empty on failure, since every block is wrapped in try/except), and the
external `urllib.parse.quote_plus` encoder. -/
structure SearchEnv where
  startOk : Bool
  googleAttempt : Nat → GoogleAttempt
  bing : List RawResult
  ddg : List RawResult
  searx : List RawResult
  qp : String → String

/-- The retry loop of `_search_google_directly` (selenium_utils.py 300-676):
`retry_count` starts at 0 with `max_retries = 2`. An attempt that completes
extraction breaks out when its results are non-empty; an attempt that raises
lands in the handler of lines 666-669, whose debug-screenshot call
dereferences `self.driver` - when the driver never started this call itself
raises on `None` and the exception escapes the method. When the driver is up
the handler completes and the loop retries. Returns the loop result (or the
escaping exception) together with the number of attempts made; `fuel` is the
number of remaining allowed attempts. -/
def googleLoop (env : SearchEnv) : Nat → Nat → Except Unit (List RawResult) × Nat
  | i, 0 => (.ok [], i)
  | i, fuel + 1 =>
    let outcome := if env.startOk then env.googleAttempt i else .navFail
    match outcome with
    | .extracted rs =>
      if rs.isEmpty then googleLoop env (i + 1) fuel else (.ok rs, i + 1)
    | _ =>
      if env.startOk then googleLoop env (i + 1) fuel else (.error (), i + 1)

/-- `_search_google_directly`: the retry loop entered with `retry_count = 0`
and `max_retries = 2`. -/
def searchGoogleDirectly (env : SearchEnv) : Except Unit (List RawResult) × Nat :=
  googleLoop env 0 2

/-- The topic-keyed fallback result of lines 1005-1047: one synthetic result
chosen by substring tests on the lowercased query (cricket-insect, then news
terms, then tech terms, then the default Wikipedia suggestion). -/
def topicResult (env : SearchEnv) (query : String) : RawResult :=
  let ql := strToLower query
  if strContainsSub ql "cricket" && (strContainsSub ql "insect" || strContainsSub ql "bug") then
    { title := "Cricket (insect) - Wikipedia",
      url := "https://en.wikipedia.org/wiki/Cricket_(insect)",
      snippet := "Crickets, of the family Gryllidae, are insects related to grasshoppers and katydids. They" ++ apos ++ "re known for the chirping sound males make by rubbing their wings together to attract females. They have long antennae and powerful jumping back legs.",
      position := 1, source := some "Fallback" }
  else if ["news", "latest", "current", "today"].any (fun t => strContainsSub ql t) then
    { title := "Latest news about " ++ query,
      url := "https://news.google.com/search?q=" ++ env.qp query,
      snippet := "Find the latest news about " ++ apos ++ query ++ apos ++ " from various sources across the web. Google News aggregates content from multiple publishers.",
      position := 1, source := some "Fallback" }
  else if ["tech", "technology", "computer", "software", "hardware"].any
      (fun t => strContainsSub ql t) then
    { title := "Technology information: " ++ query,
      url := "https://www.techradar.com/search?searchTerm=" ++ env.qp query,
      snippet := "Find technical information and reviews about " ++ apos ++ query ++ apos ++ " from technology news sources and product review sites.",
      position := 1, source := some "Fallback" }
  else
    { title := "Information about " ++ query,
      url := "https://en.wikipedia.org/wiki/Special:Search?search=" ++ env.qp query,
      snippet := "We couldn" ++ apos ++ "t retrieve search results directly, but you can find information about " ++ apos ++ query ++ apos ++ " on Wikipedia and other encyclopedic sources.",
      position := 1, source := some "Fallback" }

/-- The synthetic fallback results of lines 1000-1066: the topic result plus
the DuckDuckGo and Bing manual-search suggestions. -/
def fallbackResults (env : SearchEnv) (query : String) : List RawResult :=
  [topicResult env query,
   { title := "Search for " ++ query ++ " on DuckDuckGo",
     url := "https://duckduckgo.com/?q=" ++ env.qp query,
     snippet := "DuckDuckGo is a privacy-focused search engine that doesn" ++ apos ++ "t track your searches.",
     position := 2, source := some "Suggestion" },
   { title := "Search for " ++ query ++ " on Bing",
     url := "https://www.bing.com/search?q=" ++ env.qp query,
     snippet := "Microsoft Bing offers comprehensive search results with additional features like visual search.",
     position := 3, source := some "Suggestion" }]

/-- `_search_alternative_engines` (lines 678-1071): Bing, then DuckDuckGo,
then the Searx instances, each attempted only while `results` is still
empty; when everything failed the synthetic fallback results are returned.
Every engine block is wrapped in try/except, so this method never raises. -/
def alternativeEngines (env : SearchEnv) (query : String) : List RawResult :=
  let results := env.bing
  let results := if results.isEmpty then env.ddg else results
  let results := if results.isEmpty then env.searx else results
  if results.isEmpty then fallbackResults env query else results

/-- `SeleniumBrowser.search_google` (lines 283-298): empty queries return
`[]`; otherwise Google is tried first and the alternative chain only when it
returned no results; the final list is capped at
`settings.SEARCH_RESULTS_LIMIT` (the `limit` parameter). An exception
escaping `_search_google_directly` propagates (there is no handler here). -/
def searchGoogle (env : SearchEnv) (limit : Nat) (query : String) :
    Except Unit (List RawResult) :=
  if query = "" then .ok []
  else
    match (searchGoogleDirectly env).1 with
    | .error e => .error e
    | .ok rs =>
      let results := if rs.isEmpty then alternativeEngines env query else rs
      .ok (results.take limit)

/-- The formatted result dicts built by `WebSearcher.search`
(web_searcher.py lines 46-53): title, snippet, url, position (the `source`
key is dropped; the `.get` defaults never fire since the raw dicts always
carry these keys). -/
structure FormattedResult where
  title : String
  snippet : String
  url : String
  position : Nat
deriving DecidableEq

/-- The per-result reformatting of web_searcher.py lines 47-53. -/
def formatResult (r : RawResult) : FormattedResult :=
  { title := r.title, snippet := r.snippet, url := r.url, position := r.position }

/-- `WebSearcher.search` (web_searcher.py lines 32-60): empty queries return
`[]`; any exception out of `search_google` is caught and yields `[]`. -/
def webSearch (env : SearchEnv) (limit : Nat) (query : String) : List FormattedResult :=
  if query = "" then []
  else
    match searchGoogle env limit query with
    | .error _ => []
    | .ok rs => rs.map formatResult

/- ## Concrete environments and inputs for witnesses and counterexamples -/

/-- An environment whose browser driver fails to start; every external
search channel fails. -/
def noDriverEnv : SearchEnv :=
  { startOk := false, googleAttempt := fun _ => .err,
    bing := [], ddg := [], searx := [], qp := fun s => s }

/-- An environment whose driver is up but where every Google attempt and
every alternative channel fails. -/
def allFailEnv : SearchEnv :=
  { startOk := true, googleAttempt := fun _ => .err,
    bing := [], ddg := [], searx := [], qp := fun s => s }

/-- An environment where every Google attempt hits a CAPTCHA page. -/
def captchaEnv : SearchEnv :=
  { startOk := true, googleAttempt := fun _ => .captcha,
    bing := [], ddg := [], searx := [], qp := fun s => s }

/-- A 600-character article text (above the 500-character tier-1 threshold). -/
def longText : String := String.mk (List.replicate 600 'x')

/-- A tier-1 oracle that parses three of five demo URLs successfully. -/
def demoTier1 : String → Tier1Result := fun u =>
  if u = "https://a.com" || u = "https://b.com" || u = "https://c.com" then
    .ok ("Title of " ++ u) longText
  else .err

/-- A tier-2 oracle that always fails to navigate. -/
def demoTier2 : String → Tier2Result := fun _ => .navFail

/-- The five demo URLs of the batch-extraction scenario. -/
def demoUrls : List String :=
  ["https://a.com", "https://b.com", "https://c.com", "https://d.com", "https://e.com"]

/-- Two near-identical sentences (more than 70 percent shared tokens). -/
def dupSentA : String := "a b c d e f g h i j k."

/-- The same sentence with only the final punctuation changed. -/
def dupSentB : String := "a b c d e f g h i j k!"

/-- Six sentences, of which the first two share exactly 70 percent of their
tokens (Jaccard 7/10). -/
def sixSent : List String :=
  ["a b c d e f g h", "a b c d e f g i j", "k l", "m n", "o p", "q r"]

/-- The document tier 1 produces for the first demo URL. -/
def demoDoc : ExtractedDoc :=
  { url := "https://a.com", title := "Title of https://a.com",
    content := longText, extraction_method := "newspaper3k" }

/- ## Helper lemmas -/

theorem insertBy_length (le : Nat → Nat → Bool) (i : Nat) (l : List Nat) :
    (insertBy le i l).length = l.length + 1 := by
  induction l with
  | nil => rfl
  | cons j rest ih =>
    simp only [insertBy]
    split
    · simp
    · simp [ih]

theorem isort_length (le : Nat → Nat → Bool) (l : List Nat) :
    (isort le l).length = l.length := by
  induction l with
  | nil => rfl
  | cons i rest ih => simp [isort, insertBy_length, ih]

theorem dedup_step_length (pts acc : List String) :
    (pts.foldl (fun acc p => if acc.any (fun q => isSimilar p q) then acc else acc ++ [p]) acc).length
      ≤ acc.length + pts.length := by
  induction pts generalizing acc with
  | nil => simp
  | cons p rest ih =>
    simp only [List.foldl_cons]
    have hstep : (if acc.any (fun q => isSimilar p q) then acc else acc ++ [p]).length
        ≤ acc.length + 1 := by
      split <;> simp
    refine le_trans (ih _) ?_
    simp only [List.length_cons]
    omega

theorem dedup_step_pairwise (pts acc : List String)
    (hacc : acc.Pairwise (fun a b => isSimilar b a = false)) :
    (pts.foldl (fun acc p => if acc.any (fun q => isSimilar p q) then acc else acc ++ [p])
      acc).Pairwise (fun a b => isSimilar b a = false) := by
  induction pts generalizing acc with
  | nil => simpa using hacc
  | cons p rest ih =>
    simp only [List.foldl_cons]
    apply ih
    by_cases h : acc.any (fun q => isSimilar p q)
    · rwa [if_pos h]
    · rw [if_neg h]
      rw [List.pairwise_append]
      refine ⟨hacc, List.pairwise_singleton _ _, ?_⟩
      intro a ha b hb
      rw [List.mem_singleton] at hb
      have hnot : isSimilar b a = true → False := by
        intro hc
        rw [hb] at hc
        exact h (List.any_eq_true.mpr ⟨a, ha, hc⟩)
      cases hval : isSimilar b a
      · rfl
      · exact absurd hval hnot

theorem dedupPoints_length_le (pts : List String) :
    (dedupPoints pts).length ≤ pts.length := by
  have := dedup_step_length pts []
  simpa [dedupPoints] using this

theorem dedupPoints_pairwise (pts : List String) :
    (dedupPoints pts).Pairwise (fun a b => isSimilar b a = false) :=
  dedup_step_pairwise pts [] List.Pairwise.nil

/- ## Claim theorems -/

/-- C2: the concurrent batch extraction never raises and returns exactly the
documents of the per-URL extractions that succeed with a document, in input
order: a URL whose extraction raises (or yields nothing) is simply absent.
In particular, with the five demo URLs of which two fail, exactly three
documents come back. -/
theorem extractMultipleUrls_isolation :
    (∀ tier1 tier2 urls,
      extractMultipleUrls tier1 tier2 urls = urls.filterMap (successDoc tier1 tier2)) ∧
    (extractMultipleUrls demoTier1 demoTier2 demoUrls).length = 3 := by
  constructor
  · intro t1 t2 urls
    unfold extractMultipleUrls
    by_cases h : urls = []
    · simp [h]
    · rw [if_neg h, List.filterMap_map]
      congr 1
      funext u
      simp only [Function.comp, successDoc]
      cases extractFromUrl t1 t2 u with
      | error e => rfl
      | ok o => cases o <;> rfl
  · rfl

/-- C3: the synthesis result's sources list is exactly one {title, url}
entry per input document with non-empty content, in input order, and its
length equals the number of such documents. -/
theorem synthesize_sources_spec (gs : String → String)
    (kp : String → String → List String) (query : String) (scraped : List ScrapedDoc) :
    (synthesize gs kp query scraped).sources =
      (scraped.filter (fun d => d.content.getD "" != "")).map
        (fun d => ({ title := d.title.getD "Untitled", url := d.url.getD "" } : SourceEntry)) ∧
    (synthesize gs kp query scraped).sources.length =
      (scraped.filter (fun d => d.content.getD "" != "")).length := by
  have main : (synthesize gs kp query scraped).sources =
      (scraped.filter (fun d => d.content.getD "" != "")).map
        (fun d => ({ title := d.title.getD "Untitled", url := d.url.getD "" } : SourceEntry)) := by
    unfold synthesize
    by_cases h0 : scraped = []
    · simp [h0]
    · rw [if_neg h0]
      dsimp only
      by_cases h1 : (scraped.filter (fun d => d.content.getD "" != "")).map
          (fun d => d.content.getD "") = []
      · rw [if_pos h1]
        rw [List.map_eq_nil_iff] at h1
        simp [h1]
      · rw [if_neg h1]
  exact ⟨main, by rw [main, List.length_map]⟩

/-- C5 counterexample: the claim asserts reflexivity on every non-empty
string, but a whitespace-only string is non-empty while its token set is
empty, and `is_similar` returns false when the token-set union is empty. -/
theorem isSimilar_not_refl_on_blank : isSimilar " " " " = false ∧ " " ≠ "" := by
  exact ⟨by decide, by decide⟩

/-- C5 amended: `is_similar` is symmetric on all string pairs, and reflexive
exactly on strings whose whitespace tokenization is non-empty (a
whitespace-only string has an empty token union and compares as not
similar to itself). -/
theorem isSimilar_symm_refl :
    (∀ a b, isSimilar a b = isSimilar b a) ∧
    (∀ a, pyTokens a ≠ [] → isSimilar a a = true) := by
  constructor
  · intro a b
    simp only [isSimilar]
    rw [Finset.inter_comm, Finset.union_comm]
  · intro a ha
    have hne : (tokenSet a).card ≠ 0 := by
      rw [Finset.card_ne_zero]
      obtain ⟨x, hx⟩ := List.exists_mem_of_ne_nil _ ha
      exact ⟨x, List.mem_toFinset.mpr hx⟩
    simp only [isSimilar, Finset.inter_self, Finset.union_self]
    rw [if_neg hne]
    simp only [decide_eq_true_eq]
    omega

/-- C5 witness: the amended theorem applied at concrete strings. -/
theorem isSimilar_symm_refl_witness :
    isSimilar "cat dog" "dog cat" = isSimilar "dog cat" "cat dog" ∧
    isSimilar "hello world" "hello world" = true :=
  ⟨isSimilar_symm_refl.1 "cat dog" "dog cat",
   isSimilar_symm_refl.2 "hello world" (by decide)⟩

/-- C6: evaluation at the claim's own example exhibits the code bug. After
the filler phrase "can you tell me" is removed, the intermediate string
keeps a leading space, so the anchored interrogative pattern of
query_analyzer.py line 63 cannot match and "what is" survives, where the
spec expects "capital of France". The empty-input half of the claim holds. -/
theorem analyze_keeps_interrogative :
    analyze "Can you tell me what is the capital of France" =
      "what is the capital of France" ∧
    analyze "" = "" := ⟨rfl, rfl⟩

/-- C7 counterexample: the claim asserts URLs ending in blacklisted file
extensions (such as .pdf) and URLs whose host is youtube.com are invalid,
but `is_valid_url` has no file-extension check and no youtube, tiktok or
linkedin entries, so both URLs pass as valid. -/
theorem isValidUrl_no_extension_check :
    isValidUrl "https://example.com/file.pdf" = true ∧
    isValidUrl "https://www.youtube.com/watch?v=dQw4w9WgXcQ" = true := by
  exact ⟨by decide, by decide⟩

/-- C7 amended: `is_valid_url` is false on the empty URL, on every URL not
starting with http:// or https://, and on every URL containing one of the
six disallowed domain substrings (pinterest.com, quora.com, reddit.com,
facebook.com, twitter.com, instagram.com) anywhere; it applies no
file-extension blacklist; and the claim's well-formed example is valid. -/
theorem isValidUrl_amended :
    (∀ u, ("http://".data.isPrefixOf u.data || "https://".data.isPrefixOf u.data) = false →
      isValidUrl u = false) ∧
    (∀ u d, d ∈ disallowedDomains → strContainsSub u d = true → isValidUrl u = false) ∧
    isValidUrl "https://example.com/a?b=1" = true ∧
    isValidUrl "" = false := by
  refine ⟨?_, ?_, by decide, by decide⟩
  · intro u h
    unfold isValidUrl
    split_ifs with h1 h2 h3 <;> try rfl
    simp [h] at h2
  · intro u d hd hsub
    unfold isValidUrl
    split_ifs with h1 h2 h3 <;> try rfl
    exact absurd (List.any_eq_true.mpr ⟨d, hd, hsub⟩) h3

/-- C7 witness: the amended theorem applied at concrete URLs. -/
theorem isValidUrl_amended_witness :
    isValidUrl "ftp://example.com/a" = false ∧
    isValidUrl "https://pinterest.com/pin/123" = false :=
  ⟨isValidUrl_amended.1 "ftp://example.com/a" (by decide),
   isValidUrl_amended.2.1 "https://pinterest.com/pin/123" "pinterest.com" (by decide) (by decide)⟩

/-- C8 (spec-modelled, no cleaning code exists under src): cleaning drops
the known tracking parameters while keeping the other query parameters and
the path, and strips the fragment. -/
theorem cleanUrl_spec :
    cleanUrl "https://x.com/a?utm_source=y&z=1" = "https://x.com/a?z=1" ∧
    cleanUrl "https://x.com/a?x=1#frag" = "https://x.com/a?x=1" := ⟨rfl, rfl⟩

/-- C4 counterexample: with at most five sentences `extract_key_points`
returns the input list without any deduplication, so two near-identical
sentences (Jaccard 10/12, well above 0.7) both appear; and in the
deduplicating branch the threshold comparison is strict, so two sentences
sharing exactly 70 percent of their tokens (Jaccard 7/10, intersection 7 and
union 10) also both appear. -/
theorem extractKeyPoints_dedup_cex :
    (extractKeyPoints [dupSentA, dupSentB] [] [] = [dupSentA, dupSentB] ∧
      isSimilar dupSentA dupSentB = true) ∧
    (extractKeyPoints sixSent [] [] = sixSent ∧
      (tokenSet "a b c d e f g h" ∩ tokenSet "a b c d e f g i j").card * 10 =
        (tokenSet "a b c d e f g h" ∪ tokenSet "a b c d e f g i j").card * 7) := by
  exact ⟨⟨by decide, by decide⟩, ⟨by decide, by decide⟩⟩

/-- C4 amended: when the text tokenizes to more than five sentences, the
returned key-point list has at most ten entries and no later entry is
`is_similar` to an earlier one (Jaccard strictly above 0.7); with five or
fewer sentences the input is returned unfiltered. -/
theorem extractKeyPoints_amended (sentences qk tk : List String)
    (h : 5 < sentences.length) :
    (extractKeyPoints sentences qk tk).length ≤ 10 ∧
    (extractKeyPoints sentences qk tk).Pairwise (fun a b => isSimilar b a = false) := by
  have hn : ¬ sentences.length ≤ 5 := by omega
  constructor
  · unfold extractKeyPoints
    rw [if_neg hn]
    refine le_trans (dedupPoints_length_le _) ?_
    rw [List.length_map, isort_length]
    exact List.length_take_le _ _
  · unfold extractKeyPoints
    rw [if_neg hn]
    exact dedupPoints_pairwise _

/-- C4 witness: the amended theorem applied at the six-sentence input. -/
theorem extractKeyPoints_amended_witness :
    5 < sixSent.length ∧
    ((extractKeyPoints sixSent [] []).length ≤ 10 ∧
      (extractKeyPoints sixSent [] []).Pairwise (fun a b => isSimilar b a = false)) :=
  ⟨by decide, extractKeyPoints_amended sixSent [] [] (by decide)⟩

/- ## Remaining helper lemmas and claim theorems (C1, C9, C10) -/

theorem tier2Extract_method (t2 : String → Tier2Result) (url : String) (d : ExtractedDoc)
    (h : tier2Extract t2 url = Except.ok (some d)) :
    d.extraction_method = "playwright" := by
  unfold tier2Extract at h
  cases ht2 : t2 url with
  | navFail => rw [ht2] at h; simp at h
  | noSource => rw [ht2] at h; simp at h
  | ok a b c =>
    rw [ht2] at h
    simp only [Except.ok.injEq, Option.some.injEq] at h
    rw [← h]

/-- C10 counterexample: the tier-1 extraction records the method name
"newspaper3k" (not "fast") and the tier-2 extraction records "playwright"
(not "heuristic"), so the claimed values never occur. -/
theorem extractFromUrl_method_cex :
    extractFromUrl demoTier1 demoTier2 "https://a.com" = Except.ok (some demoDoc) ∧
    extractFromUrl (fun _ => Tier1Result.err)
        (fun _ => Tier2Result.ok "T" "body" "https://e.com") "https://e.com" =
      Except.ok (some { url := "https://e.com", title := "T", content := "body",
                        extraction_method := "playwright" }) ∧
    demoDoc.extraction_method = "newspaper3k" ∧
    "newspaper3k" ≠ "fast" ∧ "playwright" ≠ "heuristic" := by
  exact ⟨rfl, rfl, rfl, by decide, by decide⟩

/-- C10 amended: every document returned by the per-URL extraction records
its producing tier in `metadata.extraction_method`, with value "newspaper3k"
exactly when the tier-1 article extractor succeeded (which requires its
content to be at least 500 characters) and "playwright" when the tier-2
browser extraction produced the document. -/
theorem extractFromUrl_method (t1 : String → Tier1Result) (t2 : String → Tier2Result)
    (url : String) (d : ExtractedDoc)
    (h : extractFromUrl t1 t2 url = Except.ok (some d)) :
    (d.extraction_method = "newspaper3k" ∨ d.extraction_method = "playwright") ∧
    (d.extraction_method = "newspaper3k" →
      ∃ title, t1 url = Tier1Result.ok title d.content ∧ 500 ≤ d.content.length) := by
  unfold extractFromUrl at h
  by_cases hu : url = ""
  · rw [if_pos hu] at h
    simp at h
  · rw [if_neg hu] at h
    cases ht : t1 url with
    | err =>
      rw [ht] at h
      have hp := tier2Extract_method t2 url d h
      refine ⟨Or.inr hp, fun hm => ?_⟩
      rw [hm] at hp
      exact absurd hp (by decide)
    | ok title text =>
      rw [ht] at h
      dsimp only at h
      by_cases hlen : text.length < 500
      · rw [if_pos hlen] at h
        have hp := tier2Extract_method t2 url d h
        refine ⟨Or.inr hp, fun hm => ?_⟩
        rw [hm] at hp
        exact absurd hp (by decide)
      · rw [if_neg hlen] at h
        simp only [Except.ok.injEq, Option.some.injEq] at h
        subst h
        refine ⟨Or.inl rfl, fun _ => ⟨title, ?_, ?_⟩⟩
        · rfl
        · dsimp only
          omega

/-- C10 witness: the amended theorem applied at the first demo URL. -/
theorem extractFromUrl_method_witness :
    (demoDoc.extraction_method = "newspaper3k" ∨ demoDoc.extraction_method = "playwright") ∧
    (demoDoc.extraction_method = "newspaper3k" →
      ∃ title, demoTier1 "https://a.com" = Tier1Result.ok title demoDoc.content ∧
        500 ≤ demoDoc.content.length) :=
  extractFromUrl_method demoTier1 demoTier2 "https://a.com" demoDoc rfl

theorem googleLoop_succ_exc (env : SearchEnv) (i fuel : Nat) (hs : env.startOk = true)
    (h : env.googleAttempt i = GoogleAttempt.captcha) :
    googleLoop env i (fuel + 1) = googleLoop env (i + 1) fuel := by
  simp [googleLoop, hs, h]

theorem googleLoop_snd_one (env : SearchEnv) (i : Nat) (hs : env.startOk = true) :
    (googleLoop env i 1).2 = i + 1 := by
  cases h : env.googleAttempt i with
  | extracted rs =>
    simp only [googleLoop, hs, if_true, h]
    split
    · rfl
    · rfl
  | navFail => simp [googleLoop, hs, h]
  | captcha => simp [googleLoop, hs, h]
  | err => simp [googleLoop, hs, h]

/-- C9 counterexample: in an environment where the first Google attempt hits
a CAPTCHA page, the retry loop makes a second attempt against the same
provider (the attempt counter reaches 2) instead of escalating immediately:
the CAPTCHA exception lands in the same handler as any transient failure
and is retried under `max_retries = 2`. -/
theorem captcha_is_retried_cex :
    captchaEnv.googleAttempt 0 = GoogleAttempt.captcha ∧
    (searchGoogleDirectly captchaEnv).2 = 2 := ⟨rfl, rfl⟩

/-- C9 amended: a detected CAPTCHA aborts the current attempt without
extracting anything, but the provider is retried exactly like a transient
failure: whenever the driver is up and the first attempt detects a CAPTCHA,
the loop makes a second attempt (exhausting `max_retries = 2`) before
`search_google` can escalate to the alternative engines. -/
theorem captcha_is_retried (env : SearchEnv) (hs : env.startOk = true)
    (h0 : env.googleAttempt 0 = GoogleAttempt.captcha) :
    (searchGoogleDirectly env).2 = 2 := by
  unfold searchGoogleDirectly
  show (googleLoop env 0 (1 + 1)).2 = 2
  rw [googleLoop_succ_exc env 0 1 hs h0]
  exact googleLoop_snd_one env 1 hs

/-- C9 witness: the amended theorem applied at the all-CAPTCHA environment. -/
theorem captcha_is_retried_witness : (searchGoogleDirectly captchaEnv).2 = 2 :=
  captcha_is_retried captchaEnv rfl rfl

theorem googleLoop_no_error (env : SearchEnv) (hs : env.startOk = true) :
    ∀ fuel i, ∃ rs, (googleLoop env i fuel).1 = Except.ok rs := by
  intro fuel
  induction fuel with
  | zero => intro i; exact ⟨[], rfl⟩
  | succ n ih =>
    intro i
    cases h : env.googleAttempt i with
    | extracted rs =>
      simp only [googleLoop, hs, if_true, h]
      by_cases hrs : rs.isEmpty <;> simp only [hrs, if_true, if_false, Bool.false_eq_true]
      · exact ih (i + 1)
      · exact ⟨rs, rfl⟩
    | navFail =>
      simp only [googleLoop, hs, if_true, h]
      exact ih (i + 1)
    | captcha =>
      simp only [googleLoop, hs, if_true, h]
      exact ih (i + 1)
    | err =>
      simp only [googleLoop, hs, if_true, h]
      exact ih (i + 1)

theorem alternativeEngines_ne_nil (env : SearchEnv) (q : String) :
    alternativeEngines env q ≠ [] := by
  simp only [alternativeEngines]
  split_ifs <;> simp_all [fallbackResults, List.isEmpty_iff]

theorem take_pos_ne_nil {α : Type} (l : List α) (n : Nat) (h : l ≠ []) (hn : 0 < n) :
    l.take n ≠ [] := by
  intro hc
  rcases List.take_eq_nil_iff.mp hc with h0 | hl
  · omega
  · exact h hl

/-- C1 counterexample: when the browser driver fails to start, the failed
navigation raises inside the attempt, the retry handler's debug-screenshot
call then raises itself on the absent driver, `search_google` propagates the
exception, and `WebSearcher.search` catches it and returns the empty list -
for a non-empty query. -/
theorem webSearch_nonempty_cex :
    webSearch noDriverEnv 10 "cats" = [] ∧ "cats" ≠ "" := ⟨rfl, by decide⟩

/-- C1 amended: for every non-empty query, the search never raises to the
caller (exceptions are caught and become a list); and whenever the browser
driver starts successfully and the configured result limit is positive, the
returned list is non-empty - at worst the synthetic suggestion results.
When the driver fails to start the caller receives the empty list instead. -/
theorem webSearch_nonempty (env : SearchEnv) (limit : Nat) (query : String)
    (hq : query ≠ "") (hs : env.startOk = true) (hl : 0 < limit) :
    webSearch env limit query ≠ [] := by
  have hok : ∃ rs, (searchGoogleDirectly env).1 = Except.ok rs :=
    googleLoop_no_error env hs 2 0
  obtain ⟨rs, hrs⟩ := hok
  unfold webSearch
  rw [if_neg hq]
  unfold searchGoogle
  rw [if_neg hq, hrs]
  dsimp only
  rw [Ne, List.map_eq_nil_iff]
  have hbase : (if rs.isEmpty then alternativeEngines env query else rs) ≠ [] := by
    by_cases hrse : rs.isEmpty
    · rw [if_pos hrse]
      exact alternativeEngines_ne_nil env query
    · rw [if_neg hrse]
      intro hc
      rw [hc] at hrse
      exact hrse rfl
  exact take_pos_ne_nil _ _ hbase hl

/-- C1 witness: the amended theorem applied at an environment whose driver
is up but where every provider fails. -/
theorem webSearch_nonempty_witness :
    "cats" ≠ "" ∧ allFailEnv.startOk = true ∧ 0 < 10 ∧
    webSearch allFailEnv 10 "cats" ≠ [] :=
  ⟨by decide, rfl, by decide,
   webSearch_nonempty allFailEnv 10 "cats" (by decide) rfl (by decide)⟩
